import Mathlib

/-!
Verification of the BusinessContextQueryNode natural-language-to-SQL compiler
(src/nodes/analytics business-context query node).

The embedding translates the TypeScript source function-by-function:
string scanning (`String.prototype.includes`, the three limit regexes) is
modelled over `List Char`; JS numbers arising from `parseInt` on a digit
capture are modelled as exact `Nat` (the real JS `number` is a double, a
divergence that matters only for captures beyond 2^53 and is discussed at
the limit-validation theorem); the nanoservice `handle` method is modelled
as a function from an explicit context record to a response together with
the updated context.
-/

namespace AnalyticsDemo

set_option maxRecDepth 100000

/-- Boolean prefix test on character lists. -/
def isPrefixL : List Char → List Char → Bool
  | [], _ => true
  | _ :: _, [] => false
  | a :: as, b :: bs => a == b && isPrefixL as bs

/-- Boolean substring test on character lists, scanning left to right;
models `String.prototype.includes`. -/
def containsL (needle : List Char) : List Char → Bool
  | [] => isPrefixL needle []
  | c :: cs => isPrefixL needle (c :: cs) || containsL needle cs

/-- JS `haystack.includes(needle)`. -/
def jsIncludes (s sub : String) : Bool := containsL sub.toList s.toList

/-- JS `toLowerCase` restricted to ASCII, as used by the source queries. -/
def jsToLower (s : String) : String := String.mk (s.toList.map Char.toLower)

/-- Maximal leading run of decimal digits; models the greedy `\d+`. -/
def digitRun : List Char → List Char
  | [] => []
  | c :: cs => if c.isDigit then c :: digitRun cs else []

/-- Numeric value of a digit string; models `parseInt` on a `\d+` capture
with exact (unbounded) integer semantics. -/
def digitVal (l : List Char) : Nat := l.foldl (fun a c => a * 10 + (c.toNat - 48)) 0

/-- First match of a regex of shape `kw(\d+)` (the literal keyword, which in
the source ends in a space, followed by one or more digits), scanning the
text left to right; returns the digit capture. Models `query.match(/top (\d+)/)`
and `query.match(/first (\d+)/)`. -/
def matchKwNum (kw : List Char) : List Char → Option (List Char)
  | [] => none
  | c :: cs =>
    if isPrefixL kw (c :: cs) then
      let d := digitRun ((c :: cs).drop kw.length)
      if d.isEmpty then matchKwNum kw cs else some d
    else matchKwNum kw cs

/-- First match of `(\d+) (top|best|worst)`, scanning left to right; the
greedy digit run must be followed by a space and one of the keywords
(backtracking inside the run cannot produce the space, so the greedy run is
the only candidate at each start position). Returns the digit capture. -/
def matchNumKw : List Char → Option (List Char)
  | [] => none
  | c :: cs =>
    let d := digitRun (c :: cs)
    if !d.isEmpty &&
        (isPrefixL " top".toList ((c :: cs).drop d.length) ||
         isPrefixL " best".toList ((c :: cs).drop d.length) ||
         isPrefixL " worst".toList ((c :: cs).drop d.length)) then
      some d
    else matchNumKw cs

/-- Fuel-driven digit accumulation: prepends the decimal digits of `n` to
`acc`; the fuel is always at least `n + 1`, so it never runs out. -/
def natDigitsAux : Nat → Nat → List Char → List Char
  | 0, _, acc => acc
  | fuel + 1, n, acc =>
    if n < 10 then Char.ofNat (48 + n) :: acc
    else natDigitsAux fuel (n / 10) (Char.ofNat (48 + n % 10) :: acc)

/-- Decimal digit characters of a natural number, most significant first;
models JS number-to-string coercion for the integer values the source
concatenates (exact for all naturals; the JS double diverges above 2^53). -/
def natDigits (n : Nat) : List Char := natDigitsAux (n + 1) n []

/-- Decimal rendering of a natural number used when the source concatenates
a number into the SQL text. -/
def natRepr (n : Nat) : String := String.mk (natDigits n)

/-- JS `Array.prototype.join` with a separator. -/
def joinSep (sep : String) : List String → String
  | [] => ""
  | [x] => x
  | x :: y :: ys => x ++ sep ++ joinSep sep (y :: ys)

/-- JS truthiness of an optional string (absent, or the empty string, are
falsy). -/
def optTruthy : Option String → Bool
  | none => false
  | some s => s != ""

/-- JS `String.prototype.replace` with a plain-string pattern replaces only
the first occurrence; the source replaces one underscore by a space. -/
def replaceFirstUnderscore : List Char → List Char
  | [] => []
  | c :: cs => if c = '_' then ' ' :: cs else c :: replaceFirstUnderscore cs

/-- Result of date-range extraction: `{ type, sql, parameters }` in the
source. -/
structure DateRangeInfo where
  type : String
  sql : String
  parameters : List String
deriving Repr, DecidableEq

/-- Result of aggregation extraction: `{ type, function }` in the source. -/
structure AggregationInfo where
  type : String
  function : String
deriving Repr, DecidableEq

/-- Result of comparison extraction: `{ type, direction }` in the source. -/
structure ComparisonInfo where
  type : String
  direction : String
deriving Repr, DecidableEq

/-- `extractDepartment`: explicit override wins when truthy; otherwise the
first department whose synonym list has a substring match in the query. -/
def departmentPatterns : List (String × List String) :=
  [("sales", ["sales", "revenue", "pipeline", "arr", "deals"]),
   ("finance", ["finance", "financial", "cash", "burn", "runway", "expenses"]),
   ("devrel", ["devrel", "developer", "github", "community", "twitter", "discord"]),
   ("hr", ["hr", "human resources", "employee", "hiring", "turnover", "satisfaction"]),
   ("events", ["events", "conferences", "meetups", "attendees", "signups"]),
   ("compliance", ["compliance", "security", "vulnerabilities", "training", "audit"])]

/-- Keyword scan of `extractDepartment` (the part after the explicit-override
early return). -/
def deptScan (query : String) : Option String :=
  (departmentPatterns.find? (fun p => p.2.any (fun k => jsIncludes query k))).map Prod.fst

/-- `extractDepartment(query, explicitDept)` from the source: `if
(explicitDept) return explicitDept;` then the keyword table scan. -/
def extractDepartment (query : String) (explicitDept : Option String) : Option String :=
  match explicitDept with
  | some d => if d != "" then some d else deptScan query
  | none => deptScan query

/-- `parseDateRange(range)` from the source: lowercases the explicit range,
recognizes only the literal `q4`, and yields `custom` with an empty
predicate otherwise. -/
def parseDateRange (range : String) : DateRangeInfo :=
  if jsToLower range = "q4" then
    { type := "q4", sql := "EXTRACT(QUARTER FROM m.metric_date) = 4", parameters := [] }
  else
    { type := "custom", sql := "", parameters := [] }

/-- Implicit date-range rules of `extractDateRange`: quarter keywords, then
month keywords, then year keywords, each mapping to a fixed SQL predicate
with no bound parameters. -/
def implicitDateRange (query : String) : DateRangeInfo :=
  if jsIncludes query "q4" || jsIncludes query "fourth quarter" then
    { type := "q4",
      sql := "EXTRACT(QUARTER FROM m.metric_date) = 4 AND EXTRACT(YEAR FROM m.metric_date) = EXTRACT(YEAR FROM CURRENT_DATE)",
      parameters := [] }
  else if jsIncludes query "q1" || jsIncludes query "first quarter" then
    { type := "q1",
      sql := "EXTRACT(QUARTER FROM m.metric_date) = 1 AND EXTRACT(YEAR FROM m.metric_date) = EXTRACT(YEAR FROM CURRENT_DATE)",
      parameters := [] }
  else if jsIncludes query "last month" then
    { type := "last_month",
      sql := "m.metric_date >= DATE_TRUNC(\x27month\x27, CURRENT_DATE - INTERVAL \x271 month\x27) AND m.metric_date < DATE_TRUNC(\x27month\x27, CURRENT_DATE)",
      parameters := [] }
  else if jsIncludes query "this month" then
    { type := "this_month",
      sql := "m.metric_date >= DATE_TRUNC(\x27month\x27, CURRENT_DATE)",
      parameters := [] }
  else if jsIncludes query "this year" then
    { type := "this_year",
      sql := "EXTRACT(YEAR FROM m.metric_date) = EXTRACT(YEAR FROM CURRENT_DATE)",
      parameters := [] }
  else
    { type := "none", sql := "", parameters := [] }

/-- `extractDateRange(query, explicitRange)` from the source: a truthy
explicit range is routed to `parseDateRange`, otherwise the implicit rules
run on the query text. -/
def extractDateRange (query : String) (explicitRange : Option String) : DateRangeInfo :=
  match explicitRange with
  | some r => if r != "" then parseDateRange r else implicitDateRange query
  | none => implicitDateRange query

/-- `extractAggregation(query)` from the source. -/
def extractAggregation (query : String) : AggregationInfo :=
  if jsIncludes query "total" || jsIncludes query "sum" then
    { type := "sum", function := "SUM" }
  else if jsIncludes query "average" || jsIncludes query "avg" then
    { type := "avg", function := "AVG" }
  else if jsIncludes query "count" || jsIncludes query "number of" then
    { type := "count", function := "COUNT" }
  else if jsIncludes query "growth" || jsIncludes query "trend" then
    { type := "growth", function := "SUM" }
  else
    { type := "none", function := "" }

/-- Keyword-to-metric-name table of `extractMetrics`. -/
def metricPatterns : List (String × List String) :=
  [("pipeline", ["total_pipeline", "channel_partner_pipeline"]),
   ("revenue", ["actual_arr", "potential_arr"]),
   ("cash", ["cash_available", "cash_burn_rate"]),
   ("satisfaction", ["employee_satisfaction"]),
   ("turnover", ["employee_turnover_rate"]),
   ("followers", ["twitter_followers"]),
   ("stars", ["github_stars"])]

/-- `extractMetrics(query)` from the source: every matching keyword pushes
its full metric list, in table order. -/
def extractMetrics (query : String) : List String :=
  metricPatterns.foldl (fun acc p => if jsIncludes query p.1 then acc ++ p.2 else acc) []

/-- `extractComparison(query)` from the source. -/
def extractComparison (query : String) : ComparisonInfo :=
  if jsIncludes query "top" || jsIncludes query "best" || jsIncludes query "highest" then
    { type := "top", direction := "DESC" }
  else if jsIncludes query "bottom" || jsIncludes query "worst" || jsIncludes query "lowest" then
    { type := "bottom", direction := "ASC" }
  else
    { type := "none", direction := "" }

/-- `extractLimit(query)` from the source: the three numeric regexes are
tried in order (`top (\d+)`, `first (\d+)`, `(\d+) (top|best|worst)`) and
the first match wins; with no numeric match the default is 10 when the
query contains `top` or `best`, else 0. -/
def extractLimit (query : String) : Nat :=
  match matchKwNum "top ".toList query.toList with
  | some d => digitVal d
  | none =>
    match matchKwNum "first ".toList query.toList with
    | some d => digitVal d
    | none =>
      match matchNumKw query.toList with
      | some d => digitVal d
      | none =>
        if jsIncludes query "top" || jsIncludes query "best" then 10 else 0

/-- Parsed query components, mirroring the `components` object built by
`generateSQLFromNaturalLanguage`. -/
structure Components where
  department : Option String
  dateRange : DateRangeInfo
  aggregation : AggregationInfo
  metrics : List String
  comparison : ComparisonInfo
  limit : Nat
deriving Repr, DecidableEq

/-- The `components` object of `generateSQLFromNaturalLanguage`, built from
the lowercased query and the explicit overrides. -/
def queryComponents (queryLower : String) (departmentFilter dateRange : Option String) :
    Components :=
  { department := extractDepartment queryLower departmentFilter
    dateRange := extractDateRange queryLower dateRange
    aggregation := extractAggregation queryLower
    metrics := extractMetrics queryLower
    comparison := extractComparison queryLower
    limit := extractLimit queryLower }

/-- `buildAggregationSelect(aggregation)` from the source. -/
def buildAggregationSelect (a : AggregationInfo) : String :=
  if a.type = "growth" then
    "d.name as department, m.metric_name, " ++ "AVG(m.monthly_change_percent) as growth_rate"
  else
    "d.name as department, m.metric_name, " ++ a.function ++ "(m.metric_value) as aggregated_value"

/-- `buildGroupBy(aggregation, includeDepartment)` from the source. -/
def buildGroupBy (_a : AggregationInfo) (includeDepartment : Bool) : String :=
  if includeDepartment then " GROUP BY d.name, m.metric_name"
  else " GROUP BY m.metric_name"

/-- `buildOrderBy(comparison, aggregation)` from the source. -/
def buildOrderBy (c : ComparisonInfo) (a : AggregationInfo) : String :=
  if c.type = "none" then " ORDER BY m.metric_date DESC"
  else
    let orderColumn :=
      if a.type != "none" then (if a.type = "growth" then "growth_rate" else "aggregated_value")
      else "m.metric_value"
    " ORDER BY " ++ orderColumn ++ " " ++ c.direction

/-- WHERE-clause assembly of `generateSQLFromNaturalLanguage`: the ordered
condition list and the parallel parameter list, built in source order
(department equality, date predicate, metric-name IN list), with positional
placeholders numbered from the running parameter count. -/
def whereData (comps : Components) : List String × List String :=
  let s0 : List String × List String := ([], [])
  let s1 :=
    if optTruthy comps.department then
      (s0.1 ++ ["d.code = $" ++ natRepr (s0.2.length + 1)],
       s0.2 ++ [comps.department.getD ""])
    else s0
  let s2 :=
    if comps.dateRange.sql != "" then
      (s1.1 ++ [comps.dateRange.sql], s1.2 ++ comps.dateRange.parameters)
    else s1
  let s3 :=
    if comps.metrics.length > 0 then
      (s2.1 ++ ["m.metric_name IN (" ++
          joinSep ", " (comps.metrics.enum.map (fun p => "$" ++ natRepr (s2.2.length + p.1 + 1))) ++ ")"],
       s2.2 ++ comps.metrics)
    else s2
  s3

/-- Ordered pattern audit trail pushed by `generateSQLFromNaturalLanguage`,
in the order the branches fire in the source. -/
def matchedPatternsOf (comps : Components) : List String :=
  (if comps.aggregation.type = "none" then ["basic_selection"]
   else ["aggregation_" ++ comps.aggregation.type])
  ++ (if optTruthy comps.department then ["department_filter"] else [])
  ++ (if comps.dateRange.sql != "" then ["date_filter_" ++ comps.dateRange.type] else [])
  ++ (if comps.metrics.length > 0 then ["metric_filter"] else [])
  ++ (if comps.comparison.type != "none" then ["comparison_" ++ comps.comparison.type] else [])
  ++ (if comps.limit > 0 then ["limit_results"] else [])

/-- SELECT plus fixed FROM/JOIN portion of the assembled SQL. -/
def sqlSelectFrom (comps : Components) : String :=
  "SELECT " ++
    (if comps.aggregation.type = "none" then
      "d.name as department, m.metric_name, m.metric_value, m.metric_date"
     else buildAggregationSelect comps.aggregation)
  ++ " FROM metrics m" ++ " INNER JOIN departments d ON m.department_id = d.id"

/-- WHERE portion of the assembled SQL (empty when no condition fired). -/
def sqlWhere (comps : Components) : String :=
  if (whereData comps).1.length > 0 then " WHERE " ++ joinSep " AND " (whereData comps).1
  else ""

/-- GROUP BY portion of the assembled SQL: present only for aggregations,
grouping by metric name alone when a department filter is present. -/
def sqlGroup (comps : Components) : String :=
  if comps.aggregation.type != "none" then
    buildGroupBy comps.aggregation (!optTruthy comps.department)
  else ""

/-- ORDER BY portion of the assembled SQL. -/
def sqlOrder (comps : Components) : String :=
  buildOrderBy comps.comparison comps.aggregation

/-- LIMIT portion of the assembled SQL: the extracted number rendered in
decimal, appended only when positive. -/
def sqlLimit (comps : Components) : String :=
  if comps.limit > 0 then " LIMIT " ++ natRepr comps.limit else ""

/-- The full assembled SQL text, concatenated in source order. -/
def compiledSql (comps : Components) : String :=
  sqlSelectFrom comps ++ sqlWhere comps ++ sqlGroup comps ++ sqlOrder comps ++ sqlLimit comps

/-- `generateExplanation(components, patterns)` from the source. -/
def generateExplanation (comps : Components) (patterns : List String) : String :=
  let e1 := "Generated SQL query to "
  let e2 := e1 ++
    (if comps.aggregation.type != "none" then "calculate " ++ comps.aggregation.type ++ " of "
     else "retrieve ")
  let e3 := e2 ++
    (if comps.metrics.length > 0 then joinSep ", " comps.metrics ++ " metrics" else "metrics")
  let e4 := e3 ++
    (if optTruthy comps.department then " for " ++ comps.department.getD "" ++ " department"
     else "")
  let e5 := e4 ++
    (if comps.dateRange.type != "none" then
      " filtered by " ++ String.mk (replaceFirstUnderscore comps.dateRange.type.toList)
     else "")
  let e6 := e5 ++
    (if comps.comparison.type != "none" then " showing " ++ comps.comparison.type ++ " results"
     else "")
  e6 ++ ". Matched patterns: " ++ joinSep ", " patterns ++ "."

/-- The `GeneratedQuery` record returned by the compiler. -/
structure GeneratedQuery where
  sql : String
  parameters : List String
  explanation : String
  matched_patterns : List String
  department_filter : Option String
  date_filter : String
  aggregation_type : String
deriving Repr, DecidableEq

/-- `generateSQLFromNaturalLanguage(query, dbSchema, departmentFilter,
dateRange, debug)` from the source; the schema and debug flag do not
influence the produced query, so they are not parameters here (the schema
presence check lives in `handle`). -/
def generateSQL (query : String) (departmentFilter dateRange : Option String) :
    GeneratedQuery :=
  let comps := queryComponents (jsToLower query) departmentFilter dateRange
  { sql := compiledSql comps
    parameters := (whereData comps).2
    explanation := generateExplanation comps (matchedPatternsOf comps)
    matched_patterns := matchedPatternsOf comps
    department_filter := comps.department
    date_filter := comps.dateRange.type
    aggregation_type := comps.aggregation.type }

/-- Column description of the schema catalog supplied by the
schema-discovery collaborator. -/
structure SchemaColumn where
  name : String
  colType : String
  nullable : Bool
  isPrimaryKey : Bool
deriving Repr, DecidableEq

/-- Table description of the schema catalog. -/
structure SchemaTable where
  name : String
  columns : List SchemaColumn
deriving Repr, DecidableEq

/-- Schema catalog: ordered list of tables. -/
abbrev SchemaCatalog := List SchemaTable

/-- The `ctx.vars` record as used by the node: the discovered schema plus
the two keys the node writes for the downstream executor. -/
structure ContextVars where
  database_schema : Option SchemaCatalog
  generated_query : Option String
  query_parameters : Option (List String)
deriving Repr, DecidableEq

/-- The nanoservice context visible to the node. -/
structure Context where
  vars : Option ContextVars
deriving Repr, DecidableEq

/-- The node inputs (`BusinessQueryInput`). -/
structure BusinessQueryInput where
  query : String
  department : Option String
  date_range : Option String
  debug : Option Bool
deriving Repr, DecidableEq

/-- Structured error (`GlobalError` with message and code 500). -/
structure NodeError where
  message : String
  code : Nat
deriving Repr, DecidableEq

/-- Result of `handle`: the response plus the (possibly updated) context. -/
structure HandleResult where
  response : Except NodeError GeneratedQuery
  ctx : Context

/-- Error message thrown when the schema catalog is absent. -/
def schemaMissingMessage : String :=
  "Database schema not found. Please run schema-discovery node first."

/-- `handle(ctx, inputs)` from the source: fails with a structured error
when `ctx.vars?.database_schema` is absent (leaving the context untouched,
since the throw happens before any write); otherwise compiles the query and
stores `generated_query` and `query_parameters` into `ctx.vars`. -/
def handle (ctx : Context) (inputs : BusinessQueryInput) : HandleResult :=
  let dbSchema : Option SchemaCatalog :=
    match ctx.vars with
    | some v => v.database_schema
    | none => none
  match dbSchema with
  | none =>
    { response := Except.error { message := schemaMissingMessage, code := 500 }, ctx := ctx }
  | some _ =>
    let g := generateSQL inputs.query inputs.department inputs.date_range
    let v0 :=
      match ctx.vars with
      | some v => v
      | none => { database_schema := none, generated_query := none, query_parameters := none }
    { response := Except.ok g,
      ctx := { vars := some { v0 with
        generated_query := some g.sql, query_parameters := some g.parameters } } }

/-- Schema-presence check used to state the error contract of `handle`. -/
def schemaPresent (ctx : Context) : Bool :=
  match ctx.vars with
  | some v => v.database_schema.isSome
  | none => false

/-- The default no-filter query text produced when no extraction rule
fires. -/
def defaultSql : String :=
  "SELECT d.name as department, m.metric_name, m.metric_value, m.metric_date FROM metrics m INNER JOIN departments d ON m.department_id = d.id ORDER BY m.metric_date DESC"

/-- Positional-placeholder scanner: walks a SQL text and returns, in
left-to-right order, the digit run following each `$` sign (the numeral of
each positional placeholder). Used to state the placeholder/parameter
parity invariant. -/
def phScan : List Char → List (List Char)
  | [] => []
  | c :: cs =>
    if c = '$' then digitRun cs :: phScan (cs.drop (digitRun cs).length)
    else phScan cs
termination_by l => l.length
decreasing_by
  · simp only [List.length_cons, List.length_drop]
    omega
  · simp only [List.length_cons]
    omega

/-- True when the list is empty or starts with a non-digit (so a digit run
ending at a chunk boundary cannot continue into this chunk). -/
def headNotDigitB : List Char → Bool
  | [] => true
  | c :: _ => !c.isDigit

/-- True when the text contains no `$` sign (no positional placeholder can
start inside it). -/
def noDollarB (l : List Char) : Bool := l.all (fun c => c != '$')

/-- Concrete context used to exhibit the context mutation of `handle`: a
schema is present, nothing has been written yet. -/
def sampleCtx : Context := ⟨some ⟨some [], none, none⟩⟩

/-- Concrete input used to exhibit the context mutation of `handle`. -/
def sampleInput : BusinessQueryInput := ⟨"hello", none, none, none⟩

/-! ## Theorems -/

/-- `toList` distributes over string append. -/
theorem strToList_append (a b : String) : (a ++ b).toList = a.toList ++ b.toList := rfl

/-- A prefix of `a` is a prefix of `a ++ b`. -/
theorem isPrefixL_append {n a : List Char} (b : List Char) (h : isPrefixL n a = true) :
    isPrefixL n (a ++ b) = true := by
  induction n generalizing a with
  | nil => simp [isPrefixL]
  | cons c cs ih =>
    cases a with
    | nil => simp [isPrefixL] at h
    | cons x xs =>
      simp only [isPrefixL, Bool.and_eq_true] at h
      simp only [List.cons_append, isPrefixL, Bool.and_eq_true]
      exact ⟨h.1, ih h.2⟩

/-- A prefix occurrence is an occurrence. -/
theorem containsL_of_isPrefixL {n l : List Char} (h : isPrefixL n l = true) :
    containsL n l = true := by
  cases l with
  | nil => simpa [containsL] using h
  | cons c cs => simp [containsL, h]

/-- An occurrence in the right part survives prepending. -/
theorem containsL_append_right {n b : List Char} (a : List Char)
    (h : containsL n b = true) : containsL n (a ++ b) = true := by
  induction a with
  | nil => simpa using h
  | cons c cs ih => simp [containsL, ih]

/-- Characters 48..57 are digits. -/
theorem char_ofNat_digit {m : Nat} (h : m < 10) : (Char.ofNat (48 + m)).isDigit = true := by
  interval_cases m <;> decide

/-- A digit character is not a dollar sign. -/
theorem digit_ne_dollar {c : Char} (h : c.isDigit = true) : c ≠ '$' := by
  intro he
  subst he
  exact absurd h (by decide)

/-- `natDigitsAux` produces digit characters when the accumulator already
holds only digits and the fuel covers the number. -/
theorem natDigitsAux_digits :
    ∀ fuel n acc, n < fuel → (∀ c ∈ acc, c.isDigit = true) →
      ∀ c ∈ natDigitsAux fuel n acc, c.isDigit = true := by
  intro fuel
  induction fuel with
  | zero => intro n acc h _ _ _; omega
  | succ f ih =>
    intro n acc hn hacc c hc
    by_cases h10 : n < 10
    · simp only [natDigitsAux, if_pos h10] at hc
      rcases List.mem_cons.mp hc with h | h
      · subst h; exact char_ofNat_digit h10
      · exact hacc c h
    · simp only [natDigitsAux, if_neg h10] at hc
      have hdiv : n / 10 < f := by
        have := Nat.div_lt_self (show 0 < n by omega) (show 1 < 10 by omega)
        omega
      refine ih (n / 10) _ hdiv ?_ c hc
      intro x hx
      rcases List.mem_cons.mp hx with h | h
      · subst h; exact char_ofNat_digit (Nat.mod_lt _ (by omega))
      · exact hacc x h

/-- Every character of `natDigits n` is a digit. -/
theorem natDigits_digits (n : Nat) : ∀ c ∈ natDigits n, c.isDigit = true :=
  natDigitsAux_digits (n + 1) n [] (Nat.lt_succ_self n) (by simp)

/-- The decimal rendering of a natural number is nonempty. -/
theorem natDigitsAux_ne_nil :
    ∀ fuel n acc, n < fuel → natDigitsAux fuel n acc ≠ [] := by
  intro fuel
  induction fuel with
  | zero => intro n acc h; omega
  | succ f ih =>
    intro n acc hn
    by_cases h10 : n < 10
    · simp [natDigitsAux, h10]
    · simp only [natDigitsAux, if_neg h10]
      refine ih _ _ ?_
      have := Nat.div_lt_self (show 0 < n by omega) (show 1 < 10 by omega)
      omega

/-- The digit run over an append whose left part is all digits. -/
theorem digitRun_append_digits {a : List Char} (b : List Char)
    (h : ∀ c ∈ a, c.isDigit = true) : digitRun (a ++ b) = a ++ digitRun b := by
  induction a with
  | nil => simp
  | cons c cs ih =>
    have h1 : c.isDigit = true := h c (List.mem_cons_self c cs)
    have h2 := ih (fun x hx => h x (List.mem_cons_of_mem _ hx))
    simp [digitRun, h1, h2]

/-- A chunk starting with a non-digit has an empty digit run. -/
theorem digitRun_nil_of_head {b : List Char} (h : headNotDigitB b = true) :
    digitRun b = [] := by
  cases b with
  | nil => rfl
  | cons c cs =>
    simp only [headNotDigitB, Bool.not_eq_true'] at h
    simp [digitRun, h]

/-- A digit run cannot extend past an append boundary into a chunk starting
with a non-digit. -/
theorem digitRun_append_head {b : List Char} (a : List Char)
    (h : headNotDigitB b = true) : digitRun (a ++ b) = digitRun a := by
  induction a with
  | nil => simpa using digitRun_nil_of_head h
  | cons c cs ih => simp [List.cons_append, digitRun, ih]

/-- The digit run is never longer than the text. -/
theorem digitRun_length_le : ∀ l : List Char, (digitRun l).length ≤ l.length := by
  intro l
  induction l with
  | nil => simp [digitRun]
  | cons c cs ih =>
    simp only [digitRun]
    split
    · simpa using ih
    · simp

/-- Scanning skips a dollar-free chunk entirely. -/
theorem phScan_nil_left {a : List Char} (b : List Char) (h : ∀ c ∈ a, c ≠ '$') :
    phScan (a ++ b) = phScan b := by
  induction a with
  | nil => simp
  | cons c cs ih =>
    have hc : c ≠ '$' := h c (by simp)
    simp only [List.cons_append, phScan, if_neg hc]
    exact ih (fun x hx => h x (by simp [hx]))

/-- A dollar-free text has no placeholders. -/
theorem phScan_nil {a : List Char} (h : ∀ c ∈ a, c ≠ '$') : phScan a = [] := by
  have := phScan_nil_left [] h
  simpa [phScan] using this

/-- Scanning distributes over an append whose right part starts with a
non-digit (so the boundary cannot split a placeholder numeral). -/
theorem phScan_append {b : List Char} (a : List Char) (hb : headNotDigitB b = true) :
    phScan (a ++ b) = phScan a ++ phScan b := by
  induction a using phScan.induct with
  | case1 => simp [phScan]
  | case2 cs ih =>
    simp only [List.cons_append, phScan, if_pos rfl]
    rw [digitRun_append_head cs hb,
      List.drop_append_of_le_length (digitRun_length_le cs), ih]
    simp
  | case3 c cs h ih =>
    simp only [List.cons_append, phScan, if_neg h, ih]

/-- A `$` followed by a numeral and a non-digit chunk scans to exactly that
numeral followed by the scan of the rest. -/
theorem phScan_dollar (k : Nat) (rest : List Char) (hrest : headNotDigitB rest = true) :
    phScan ('$' :: (natDigits k ++ rest)) = natDigits k :: phScan rest := by
  have hd : ∀ c ∈ natDigits k, c.isDigit = true := natDigits_digits k
  simp only [phScan, if_pos rfl]
  rw [digitRun_append_digits rest hd, digitRun_nil_of_head hrest, List.append_nil,
    List.drop_left]
  simp

/-- Scanning the comma-joined placeholder list `$k1, $k2, …` yields exactly
the numerals, in order. -/
theorem phScan_join (ns : List Nat) :
    phScan (joinSep ", " (ns.map (fun k => "$" ++ natRepr k))).toList = ns.map natDigits := by
  induction ns with
  | nil => simp [joinSep, phScan]
  | cons k ks ih =>
    cases ks with
    | nil =>
      show phScan ("$" ++ natRepr k).toList = [natDigits k]
      have hl : ("$" ++ natRepr k).toList = '$' :: (natDigits k ++ []) := by
        simp [strToList_append, natRepr]
      rw [hl, phScan_dollar k [] rfl]
      simp [phScan]
    | cons k2 ks2 =>
      show phScan (("$" ++ natRepr k) ++ ", " ++
          joinSep ", " ((k2 :: ks2).map (fun k => "$" ++ natRepr k))).toList =
        natDigits k :: (k2 :: ks2).map natDigits
      have hl : (("$" ++ natRepr k) ++ ", " ++
          joinSep ", " ((k2 :: ks2).map (fun k => "$" ++ natRepr k))).toList =
          '$' :: (natDigits k ++ (", ".toList ++
            (joinSep ", " ((k2 :: ks2).map (fun k => "$" ++ natRepr k))).toList)) := by
        simp [strToList_append, natRepr]
      rw [hl, phScan_dollar k (", ".toList ++
          (joinSep ", " ((k2 :: ks2).map (fun k => "$" ++ natRepr k))).toList) rfl,
        phScan_nil_left _ (show ∀ c ∈ ", ".toList, c ≠ '$' by decide), ih]

/-- The enumerated placeholder builders of the metric IN list equal a
`range'`-indexed placeholder list. -/
theorem enum_placeholder (xs : List String) (b : Nat) :
    xs.enum.map (fun p => "$" ++ natRepr (b + p.1 + 1)) =
      (List.range' (b + 1) xs.length).map (fun k => "$" ++ natRepr k) := by
  have h1 : xs.enum.map (fun p => "$" ++ natRepr (b + p.1 + 1)) =
      (xs.enum.map Prod.fst).map (fun i => "$" ++ natRepr (b + i + 1)) := by
    rw [List.map_map]; rfl
  rw [h1, List.enum_map_fst, List.range'_eq_map_range, List.map_map]
  refine List.map_congr_left ?_
  intro i _
  show "$" ++ natRepr (b + i + 1) = "$" ++ natRepr (b + 1 + i)
  rw [show b + i + 1 = b + 1 + i from by omega]

/-- Lemma: a truthy explicit department override is returned unchanged by
`extractDepartment`. -/
theorem extractDepartment_explicit (q d : String) (h : d ≠ "") :
    extractDepartment q (some d) = some d := by
  simp [extractDepartment, bne_iff_ne, h]

/-- `String.mk` and `toList` cancel. -/
theorem mk_toList (l : List Char) : (String.mk l).toList = l := rfl

/-- A non-dollar head does not affect the scan. -/
theorem phScan_cons_ne (c : Char) (cs : List Char) (h : c ≠ '$') :
    phScan (c :: cs) = phScan cs := by
  have h1 : ∀ x ∈ [c], x ≠ '$' := by simpa using h
  simpa using phScan_nil_left cs h1

/-- `extractAggregation` only ever returns one of five fixed records. -/
theorem extractAggregation_cases (q : String) :
    extractAggregation q = { type := "sum", function := "SUM" } ∨
    extractAggregation q = { type := "avg", function := "AVG" } ∨
    extractAggregation q = { type := "count", function := "COUNT" } ∨
    extractAggregation q = { type := "growth", function := "SUM" } ∨
    extractAggregation q = { type := "none", function := "" } := by
  unfold extractAggregation
  split_ifs <;> simp

/-- `extractComparison` only ever returns one of three fixed records. -/
theorem extractComparison_cases (q : String) :
    extractComparison q = { type := "top", direction := "DESC" } ∨
    extractComparison q = { type := "bottom", direction := "ASC" } ∨
    extractComparison q = { type := "none", direction := "" } := by
  unfold extractComparison
  split_ifs <;> simp

/-- Every date-range rule, explicit or implicit, binds no parameters. -/
theorem extractDateRange_params (q : String) (r : Option String) :
    (extractDateRange q r).parameters = [] := by
  rcases r with _ | s <;>
    simp only [extractDateRange, parseDateRange, implicitDateRange] <;>
    split_ifs <;> rfl

/-- Every date-range predicate fragment is free of dollar signs. -/
theorem extractDateRange_sql_noDollar (q : String) (r : Option String) :
    ∀ c ∈ (extractDateRange q r).sql.toList, c ≠ '$' := by
  rcases r with _ | s <;>
    simp only [extractDateRange, parseDateRange, implicitDateRange] <;>
    split_ifs <;> decide

/-- The SELECT/FROM portion never contains a dollar sign. -/
theorem sqlSelectFrom_noDollar (q : String) (dep dr : Option String) :
    ∀ c ∈ (sqlSelectFrom (queryComponents (jsToLower q) dep dr)).toList, c ≠ '$' := by
  simp only [sqlSelectFrom, buildAggregationSelect, queryComponents]
  rcases extractAggregation_cases (jsToLower q) with h | h | h | h | h <;> simp only [h] <;>
    decide

/-- The ORDER BY portion never contains a dollar sign. -/
theorem sqlOrder_noDollar (q : String) (dep dr : Option String) :
    ∀ c ∈ (sqlOrder (queryComponents (jsToLower q) dep dr)).toList, c ≠ '$' := by
  simp only [sqlOrder, buildOrderBy, queryComponents]
  rcases extractComparison_cases (jsToLower q) with hc | hc | hc <;>
    rcases extractAggregation_cases (jsToLower q) with ha | ha | ha | ha | ha <;>
    simp only [hc, ha] <;> decide

/-- The GROUP BY portion never contains a dollar sign. -/
theorem sqlGroup_noDollar (comps : Components) :
    ∀ c ∈ (sqlGroup comps).toList, c ≠ '$' := by
  unfold sqlGroup buildGroupBy
  split_ifs <;> decide

/-- The LIMIT portion never contains a dollar sign (its variable part is
all digits). -/
theorem sqlLimit_noDollar (comps : Components) :
    ∀ c ∈ (sqlLimit comps).toList, c ≠ '$' := by
  unfold sqlLimit
  split_ifs
  · intro c hc
    rw [strToList_append] at hc
    rcases List.mem_append.mp hc with h | h
    · exact (show ∀ x ∈ " LIMIT ".toList, x ≠ '$' by decide) c h
    · exact digit_ne_dollar (natDigits_digits _ c (by simpa [natRepr, mk_toList] using h))
  · decide

/-- The GROUP BY/ORDER BY/LIMIT tail contains no placeholders. -/
theorem sqlTail_phScan (q : String) (dep dr : Option String) :
    phScan ((sqlGroup (queryComponents (jsToLower q) dep dr)).toList ++
      ((sqlOrder (queryComponents (jsToLower q) dep dr)).toList ++
        (sqlLimit (queryComponents (jsToLower q) dep dr)).toList)) = [] := by
  apply phScan_nil
  intro c hc
  rcases List.mem_append.mp hc with h | h
  · exact sqlGroup_noDollar _ c h
  · rcases List.mem_append.mp h with h | h
    · exact sqlOrder_noDollar q dep dr c h
    · exact sqlLimit_noDollar _ c h

/-- The GROUP BY/ORDER BY/LIMIT tail starts with a space (a digit run can
never leak into it across the boundary). -/
theorem sqlTail_head (comps : Components) :
    headNotDigitB ((sqlGroup comps).toList ++
      ((sqlOrder comps).toList ++ (sqlLimit comps).toList)) = true := by
  unfold sqlGroup buildGroupBy sqlOrder buildOrderBy
  split_ifs <;> rfl

/-- Scanning past the fixed `WHERE` keyword. -/
theorem phScan_whereHead (rest : List Char) :
    phScan (" WHERE ".toList ++ rest) = phScan rest :=
  phScan_nil_left rest (by decide)

/-- Scanning past the fixed `AND` connective. -/
theorem phScan_and (rest : List Char) :
    phScan (" AND ".toList ++ rest) = phScan rest :=
  phScan_nil_left rest (by decide)

/-- Scanning the department-equality condition: one placeholder `$1`. -/
theorem phScan_dept (rest : List Char) (h : headNotDigitB rest = true) :
    phScan ("d.code = $".toList ++ ((natRepr 1).toList ++ rest)) =
      natDigits 1 :: phScan rest := by
  have h2 : ("d.code = $" : String).toList = "d.code = ".toList ++ ['$'] := by decide
  have h1 : ("d.code = $" : String).toList ++ ((natRepr 1).toList ++ rest) =
      "d.code = ".toList ++ ('$' :: (natDigits 1 ++ rest)) := by
    rw [h2]
    simp [natRepr, mk_toList, List.append_assoc]
  rw [h1, phScan_nil_left _ (show ∀ c ∈ "d.code = ".toList, c ≠ '$' by decide)]
  exact phScan_dollar 1 rest h

/-- Scanning the metric-name IN condition: one placeholder per metric,
numbered consecutively from `b + 1`. -/
theorem phScan_min (b : Nat) (xs : List String) (rest : List Char) :
    phScan ("m.metric_name IN (".toList ++
        ((joinSep ", " (xs.enum.map (fun p => "$" ++ natRepr (b + p.1 + 1)))).toList ++
          (")".toList ++ rest))) =
      (List.range' (b + 1) xs.length).map natDigits ++ phScan rest := by
  rw [enum_placeholder xs b,
    phScan_nil_left _ (show ∀ c ∈ "m.metric_name IN (".toList, c ≠ '$' by decide),
    phScan_append _ (show headNotDigitB (")".toList ++ rest) = true from rfl),
    phScan_join, phScan_nil_left rest (show ∀ c ∈ ")".toList, c ≠ '$' by decide)]

/-- The empty string has no characters. -/
theorem empty_toList : ("" : String).toList = [] := rfl

/-- A chunk starting with the AND connective starts with a space. -/
theorem headNotDigit_and (rest : List Char) :
    headNotDigitB (" AND ".toList ++ rest) = true := rfl

/-- Scanning the WHERE clause followed by the GROUP BY/ORDER BY/LIMIT tail
yields exactly the placeholder numerals `1 ... n` where `n` is the number of
bound parameters. -/
theorem phScan_where_tail (q : String) (dep dr : Option String) :
    phScan ((sqlWhere (queryComponents (jsToLower q) dep dr)).toList ++
      ((sqlGroup (queryComponents (jsToLower q) dep dr)).toList ++
        ((sqlOrder (queryComponents (jsToLower q) dep dr)).toList ++
          (sqlLimit (queryComponents (jsToLower q) dep dr)).toList))) =
      (List.range' 1 (whereData (queryComponents (jsToLower q) dep dr)).2.length).map
        natDigits := by
  have hp : (queryComponents (jsToLower q) dep dr).dateRange.parameters = [] :=
    extractDateRange_params (jsToLower q) dr
  have hds : ∀ c ∈ (queryComponents (jsToLower q) dep dr).dateRange.sql.toList, c ≠ '$' :=
    extractDateRange_sql_noDollar (jsToLower q) dr
  have htail := sqlTail_phScan q dep dr
  have hthead := sqlTail_head (queryComponents (jsToLower q) dep dr)
  set C := queryComponents (jsToLower q) dep dr with hC
  set T := (sqlGroup C).toList ++ ((sqlOrder C).toList ++ (sqlLimit C).toList) with hT
  cases h1 : optTruthy C.department <;>
    cases h2 : (C.dateRange.sql != "") <;>
    rcases hm : C.metrics with _ | ⟨m0, ms⟩
  · -- no department, no date, no metrics
    have hw : whereData C = ([], []) := by
      unfold whereData
      simp [h1, h2, hm, hp]
    have hW0 : sqlWhere C = "" := by
      simp [sqlWhere, hw]
    rw [hW0, empty_toList, List.nil_append, hw, htail]
    simp
  · -- no department, no date, metrics
    have hw : whereData C =
        (["m.metric_name IN (" ++
          joinSep ", " ((m0 :: ms).enum.map (fun p => "$" ++ natRepr (p.1 + 1))) ++ ")"],
         m0 :: ms) := by
      unfold whereData
      simp [h1, h2, hm, hp]
    have hWl : (sqlWhere C).toList ++ T =
        " WHERE ".toList ++ ("m.metric_name IN (".toList ++
          ((joinSep ", " ((m0 :: ms).enum.map (fun p => "$" ++ natRepr (p.1 + 1)))).toList ++
            (")".toList ++ T))) := by
      simp [sqlWhere, hw, joinSep, strToList_append, List.append_assoc]
    rw [hWl, phScan_whereHead]
    have hmin := phScan_min 0 (m0 :: ms) T
    simp only [Nat.zero_add] at hmin
    rw [hmin, htail, hw]
    simp
  · -- no department, date, no metrics
    have hw : whereData C = ([C.dateRange.sql], []) := by
      unfold whereData
      simp [h1, h2, hm, hp]
    have hWl : (sqlWhere C).toList ++ T =
        " WHERE ".toList ++ (C.dateRange.sql.toList ++ T) := by
      simp [sqlWhere, hw, joinSep, strToList_append, List.append_assoc]
    rw [hWl, phScan_whereHead, phScan_nil_left _ hds, htail, hw]
    simp
  · -- no department, date, metrics
    have hw : whereData C =
        ([C.dateRange.sql,
          "m.metric_name IN (" ++
            joinSep ", " ((m0 :: ms).enum.map (fun p => "$" ++ natRepr (p.1 + 1))) ++ ")"],
         m0 :: ms) := by
      unfold whereData
      simp [h1, h2, hm, hp]
    have hWl : (sqlWhere C).toList ++ T =
        " WHERE ".toList ++ (C.dateRange.sql.toList ++
          (" AND ".toList ++ ("m.metric_name IN (".toList ++
            ((joinSep ", " ((m0 :: ms).enum.map
                (fun p => "$" ++ natRepr (p.1 + 1)))).toList ++
              (")".toList ++ T))))) := by
      simp [sqlWhere, hw, joinSep, strToList_append, List.append_assoc]
    rw [hWl, phScan_whereHead, phScan_nil_left _ hds, phScan_and]
    have hmin := phScan_min 0 (m0 :: ms) T
    simp only [Nat.zero_add] at hmin
    rw [hmin, htail, hw]
    simp
  · -- department, no date, no metrics
    have hw : whereData C =
        (["d.code = $" ++ natRepr 1], [C.department.getD ""]) := by
      unfold whereData
      simp [h1, h2, hm, hp]
    have hWl : (sqlWhere C).toList ++ T =
        " WHERE ".toList ++ ("d.code = $".toList ++ ((natRepr 1).toList ++ T)) := by
      simp [sqlWhere, hw, joinSep, strToList_append, List.append_assoc]
    rw [hWl, phScan_whereHead, phScan_dept T hthead, htail, hw]
    simp
  · -- department, no date, metrics
    have hw : whereData C =
        (["d.code = $" ++ natRepr 1,
          "m.metric_name IN (" ++
            joinSep ", " ((m0 :: ms).enum.map (fun p => "$" ++ natRepr (1 + p.1 + 1))) ++ ")"],
         C.department.getD "" :: (m0 :: ms)) := by
      unfold whereData
      simp [h1, h2, hm, hp]
    have hWl : (sqlWhere C).toList ++ T =
        " WHERE ".toList ++ ("d.code = $".toList ++ ((natRepr 1).toList ++
          (" AND ".toList ++ ("m.metric_name IN (".toList ++
            ((joinSep ", " ((m0 :: ms).enum.map
                (fun p => "$" ++ natRepr (1 + p.1 + 1)))).toList ++
              (")".toList ++ T)))))) := by
      simp [sqlWhere, hw, joinSep, strToList_append, List.append_assoc]
    rw [hWl, phScan_whereHead, phScan_dept _ (headNotDigit_and _), phScan_and,
      phScan_min 1 (m0 :: ms) T, htail, hw]
    simp [List.range'_succ]
  · -- department, date, no metrics
    have hw : whereData C =
        (["d.code = $" ++ natRepr 1, C.dateRange.sql], [C.department.getD ""]) := by
      unfold whereData
      simp [h1, h2, hm, hp]
    have hWl : (sqlWhere C).toList ++ T =
        " WHERE ".toList ++ ("d.code = $".toList ++ ((natRepr 1).toList ++
          (" AND ".toList ++ (C.dateRange.sql.toList ++ T)))) := by
      simp [sqlWhere, hw, joinSep, strToList_append, List.append_assoc]
    rw [hWl, phScan_whereHead, phScan_dept _ (headNotDigit_and _), phScan_and,
      phScan_nil_left _ hds, htail, hw]
    simp
  · -- department, date, metrics
    have hw : whereData C =
        (["d.code = $" ++ natRepr 1, C.dateRange.sql,
          "m.metric_name IN (" ++
            joinSep ", " ((m0 :: ms).enum.map (fun p => "$" ++ natRepr (1 + p.1 + 1))) ++ ")"],
         C.department.getD "" :: (m0 :: ms)) := by
      unfold whereData
      simp [h1, h2, hm, hp]
    have hWl : (sqlWhere C).toList ++ T =
        " WHERE ".toList ++ ("d.code = $".toList ++ ((natRepr 1).toList ++
          (" AND ".toList ++ (C.dateRange.sql.toList ++
            (" AND ".toList ++ ("m.metric_name IN (".toList ++
              ((joinSep ", " ((m0 :: ms).enum.map
                  (fun p => "$" ++ natRepr (1 + p.1 + 1)))).toList ++
                (")".toList ++ T)))))))) := by
      simp [sqlWhere, hw, joinSep, strToList_append, List.append_assoc]
    rw [hWl, phScan_whereHead, phScan_dept _ (headNotDigit_and _), phScan_and,
      phScan_nil_left _ hds, phScan_and, phScan_min 1 (m0 :: ms) T, htail, hw]
    simp [List.range'_succ]

/-- The bound parameters are, in order: the department value (when a
department filter fired), the date-range bound values (always none), then
the extracted metric names. -/
theorem whereData_params (q : String) (dep dr : Option String) :
    (whereData (queryComponents (jsToLower q) dep dr)).2 =
      (if optTruthy (extractDepartment (jsToLower q) dep) then
        [(extractDepartment (jsToLower q) dep).getD ""] else []) ++
      (extractDateRange (jsToLower q) dr).parameters ++ extractMetrics (jsToLower q) := by
  unfold whereData
  cases h1 : optTruthy (extractDepartment (jsToLower q) dep) <;>
    cases h2 : ((extractDateRange (jsToLower q) dr).sql != "") <;>
    rcases hm : extractMetrics (jsToLower q) with _ | ⟨m0, ms⟩ <;>
    simp [queryComponents, h1, h2, hm, extractDateRange_params]

/-- C1 — placeholder/parameter parity and binding order: the positional
placeholders embedded in the produced sql are exactly `$1 ... $n`, in
left-to-right order, where `n` is the length of the parameter list, and the
parameters are bound in clause order: the department-equality value first,
then the date-range bound values (always none), then one value per metric
name of the IN list. -/
theorem placeholder_parameter_parity (q : String) (dep dr : Option String) :
    phScan (generateSQL q dep dr).sql.toList =
      (List.range' 1 (generateSQL q dep dr).parameters.length).map natDigits ∧
    (generateSQL q dep dr).parameters =
      (if optTruthy (extractDepartment (jsToLower q) dep) then
        [(extractDepartment (jsToLower q) dep).getD ""] else []) ++
      (extractDateRange (jsToLower q) dr).parameters ++ extractMetrics (jsToLower q) := by
  constructor
  · have hsel := sqlSelectFrom_noDollar q dep dr
    have h := phScan_where_tail q dep dr
    have hsql : (generateSQL q dep dr).sql.toList =
        (sqlSelectFrom (queryComponents (jsToLower q) dep dr)).toList ++
          ((sqlWhere (queryComponents (jsToLower q) dep dr)).toList ++
            ((sqlGroup (queryComponents (jsToLower q) dep dr)).toList ++
              ((sqlOrder (queryComponents (jsToLower q) dep dr)).toList ++
                (sqlLimit (queryComponents (jsToLower q) dep dr)).toList))) := by
      simp [generateSQL, compiledSql, strToList_append, List.append_assoc]
    rw [hsql, phScan_nil_left _ hsel]
    exact h
  · exact whereData_params q dep dr

/-- C3 — `handle` signals a structured error exactly when the schema
catalog is absent from the context; for any present schema and any
question the response is the full compiled query, and on the error path
the response carries only the error naming the missing dependency. -/
theorem handle_error_iff_schema_missing (ctx : Context) (i : BusinessQueryInput) :
    (handle ctx i).response =
      if schemaPresent ctx then
        Except.ok (generateSQL i.query i.department i.date_range)
      else
        Except.error { message := schemaMissingMessage, code := 500 } := by
  rcases ctx with ⟨_ | v⟩
  · simp [handle, schemaPresent]
  · rcases hv : v.database_schema with _ | s <;>
      simp [handle, schemaPresent, hv]

/-- C7 — for every question and every supplied (non-empty) explicit
department override, the compiled query's department filter equals the
override, regardless of department keywords in the question text. -/
theorem department_override_wins (q d : String) (dr : Option String) (h : d ≠ "") :
    extractDepartment (jsToLower q) (some d) = some d ∧
    (generateSQL q (some d) dr).department_filter = some d := by
  refine ⟨extractDepartment_explicit _ _ h, ?_⟩
  simp [generateSQL, queryComponents, extractDepartment_explicit _ _ h]

/-- Witness for C7 at the spec's own example: explicit `sales` beats the
inferred `finance`. -/
theorem department_override_wins_witness :
    extractDepartment (jsToLower "show me finance numbers") (some "sales") = some "sales" ∧
    (generateSQL "show me finance numbers" (some "sales") none).department_filter =
      some "sales" :=
  department_override_wins "show me finance numbers" "sales" none (by decide)

/-- C9 — determinism: two compilations of the same inputs produce identical
sql strings and identical parameter lists (the compiler reads no clock and
no randomness; all date logic is delegated to SQL `CURRENT_DATE`). -/
theorem compile_deterministic (q : String) (dep dr : Option String)
    (g1 g2 : GeneratedQuery) (h1 : g1 = generateSQL q dep dr)
    (h2 : g2 = generateSQL q dep dr) :
    g1.sql = g2.sql ∧ g1.parameters = g2.parameters := by
  subst h1; subst h2; exact ⟨rfl, rfl⟩

/-- Witness for C9 at a concrete input. -/
theorem compile_deterministic_witness :
    (generateSQL "total sales" none none).sql = (generateSQL "total sales" none none).sql ∧
    (generateSQL "total sales" none none).parameters =
      (generateSQL "total sales" none none).parameters :=
  compile_deterministic "total sales" none none _ _ rfl rfl

/-- C5 counterexample — an explicit `q4` override is not parsed by the rule
table used for implicit matching: the explicit predicate lacks the
current-year clause, and explicit `q1` is not recognized at all (it falls
to `custom` with an empty predicate) while the same phrase in the question
text yields the full `q1` predicate. -/
theorem explicit_range_differs_from_implicit :
    extractDateRange "q4" (some "q4") ≠ extractDateRange "q4" none ∧
    (extractDateRange "q1" (some "q1")).type = "custom" ∧
    (extractDateRange "q1" (some "q1")).sql = "" ∧
    (extractDateRange "q1" none).type = "q1" := by
  decide

/-- C5 amended — a truthy explicit dateRange override takes priority but is
parsed by a separate reduced table: only the literal `q4`
(case-insensitively) is recognized, yielding a quarter-4 predicate without
the year clause; every other explicit value yields kind `custom` with an
empty predicate. -/
theorem explicit_range_parse (q r : String) (h : r ≠ "") :
    extractDateRange q (some r) = parseDateRange r ∧
    (jsToLower r = "q4" →
      parseDateRange r =
        { type := "q4", sql := "EXTRACT(QUARTER FROM m.metric_date) = 4", parameters := [] }) ∧
    (jsToLower r ≠ "q4" →
      parseDateRange r = { type := "custom", sql := "", parameters := [] }) := by
  refine ⟨?_, ?_, ?_⟩
  · simp [extractDateRange, bne_iff_ne, h]
  · intro hq; simp [parseDateRange, hq]
  · intro hq; simp [parseDateRange, hq]

/-- Witness for C5 amended at concrete overrides. -/
theorem explicit_range_parse_witness :
    extractDateRange "hello" (some "q1") = parseDateRange "q1" :=
  (explicit_range_parse "hello" "q1" (by decide)).1

/-- C6 counterexample — the question `highest revenue` triggers comparison
detection (`highest` maps to top/DESC) yet the extracted limit is 0, not
the claimed default 10: the default only fires on the substrings `top` or
`best`. -/
theorem comparison_without_default_limit :
    extractComparison "highest revenue" = { type := "top", direction := "DESC" } ∧
    extractLimit "highest revenue" = 0 := by
  decide

/-- C6 amended — the first numeric pattern match wins (in the order
`top N`, `first N`, `N top|best|worst`); when no numeric pattern matches,
the default limit 10 applies exactly when the question contains `top` or
`best` (not for the other comparison keywords), and otherwise the limit is
0. -/
theorem limit_extraction_rule :
    (∀ q d, matchKwNum "top ".toList q.toList = some d → extractLimit q = digitVal d) ∧
    (∀ q d, matchKwNum "top ".toList q.toList = none →
      matchKwNum "first ".toList q.toList = some d → extractLimit q = digitVal d) ∧
    (∀ q d, matchKwNum "top ".toList q.toList = none →
      matchKwNum "first ".toList q.toList = none →
      matchNumKw q.toList = some d → extractLimit q = digitVal d) ∧
    (∀ q, matchKwNum "top ".toList q.toList = none →
      matchKwNum "first ".toList q.toList = none →
      matchNumKw q.toList = none →
      extractLimit q = if jsIncludes q "top" || jsIncludes q "best" then 10 else 0) := by
  refine ⟨?_, ?_, ?_, ?_⟩
  · intro q d h
    simp only [extractLimit]
    rw [h]
  · intro q d h1 h2
    simp only [extractLimit]
    rw [h1, h2]
  · intro q d h1 h2 h3
    simp only [extractLimit]
    rw [h1, h2, h3]
  · intro q h1 h2 h3
    simp only [extractLimit]
    rw [h1, h2, h3]

/-- Witness for C6 amended: a comparison keyword other than `top`/`best`
yields limit 0 through the default rule. -/
theorem limit_extraction_rule_witness :
    extractLimit "lowest cash" =
      if jsIncludes "lowest cash" "top" || jsIncludes "lowest cash" "best" then 10 else 0 :=
  limit_extraction_rule.2.2.2 "lowest cash" (by decide) (by decide) (by decide)

/-- C2 — the limit capture is digits-only by the regex shape, but no bound
is ever enforced: a 22-digit capture (greater than 2^53, beyond exact
double range, and at the threshold where a JS number prints in exponential
notation) is accepted and concatenated into the SQL text instead of being
discarded. In this exact-integer embedding the clause renders the full
numeral; the real JS code renders `LIMIT 1e+21` here, which is not a
decimal integer literal. -/
theorem limit_not_bounded :
    extractLimit "top 1000000000000000000000" = 10 ^ 21 ∧
    2 ^ 53 < extractLimit "top 1000000000000000000000" ∧
    (generateSQL "top 1000000000000000000000" none none).sql =
      "SELECT d.name as department, m.metric_name, m.metric_value, m.metric_date FROM metrics m INNER JOIN departments d ON m.department_id = d.id ORDER BY m.metric_value DESC LIMIT 1000000000000000000000" := by
  refine ⟨by decide, by decide, by decide⟩

/-- C8 counterexample — `handle` does not leave the caller-visible context
unchanged: on success it writes the generated query into `ctx.vars`. -/
theorem handle_mutates_context : (handle sampleCtx sampleInput).ctx ≠ sampleCtx := by
  decide

/-- C8 amended — `handle` is a deterministic function of its inputs with
exactly one caller-visible effect: on success it stores the compiled sql
and parameter list into the context's `generated_query` and
`query_parameters` slots, leaving the schema and everything else unchanged;
on the missing-schema path the context is returned untouched. -/
theorem handle_context_effect (ctx : Context) (i : BusinessQueryInput) :
    (handle ctx i).ctx =
      match ctx.vars with
      | none => ctx
      | some v =>
        if v.database_schema.isSome then
          { vars := some { v with
              generated_query := some (generateSQL i.query i.department i.date_range).sql,
              query_parameters :=
                some (generateSQL i.query i.department i.date_range).parameters } }
        else ctx := by
  rcases ctx with ⟨_ | v⟩
  · simp [handle]
  · rcases hv : v.database_schema with _ | s <;> simp [handle, hv]

/-- C4 — whenever an aggregation is extracted and a department filter is
present (explicit or inferred), the assembled SQL's GROUP BY clause is
exactly " GROUP BY m.metric_name" (the department column is not part of the
grouping key) while the SELECT clause still contains
"d.name as department". -/
theorem groupby_excludes_department (q : String) (dep dr : Option String)
    (h1 : (extractAggregation (jsToLower q)).type ≠ "none")
    (h2 : optTruthy (extractDepartment (jsToLower q) dep) = true) :
    (generateSQL q dep dr).sql =
      sqlSelectFrom (queryComponents (jsToLower q) dep dr) ++
      sqlWhere (queryComponents (jsToLower q) dep dr) ++
      " GROUP BY m.metric_name" ++
      sqlOrder (queryComponents (jsToLower q) dep dr) ++
      sqlLimit (queryComponents (jsToLower q) dep dr) ∧
    jsIncludes (sqlSelectFrom (queryComponents (jsToLower q) dep dr))
      "d.name as department" = true := by
  constructor
  · have hg : sqlGroup (queryComponents (jsToLower q) dep dr) = " GROUP BY m.metric_name" := by
      simp [sqlGroup, buildGroupBy, queryComponents, h2, bne_iff_ne, h1]
    calc (generateSQL q dep dr).sql
        = compiledSql (queryComponents (jsToLower q) dep dr) := rfl
      _ = sqlSelectFrom (queryComponents (jsToLower q) dep dr) ++
          sqlWhere (queryComponents (jsToLower q) dep dr) ++
          sqlGroup (queryComponents (jsToLower q) dep dr) ++
          sqlOrder (queryComponents (jsToLower q) dep dr) ++
          sqlLimit (queryComponents (jsToLower q) dep dr) := rfl
      _ = _ := by rw [hg]
  · have hpre : isPrefixL "d.name as department".toList
        ((if (queryComponents (jsToLower q) dep dr).aggregation.type = "none" then
          "d.name as department, m.metric_name, m.metric_value, m.metric_date"
         else buildAggregationSelect (queryComponents (jsToLower q) dep dr).aggregation)).toList
        = true := by
      split
      · decide
      · unfold buildAggregationSelect
        split
        · decide
        · show isPrefixL "d.name as department".toList
            ("d.name as department, m.metric_name, ".toList ++ _) = true
          exact isPrefixL_append _ (by decide)
    unfold jsIncludes sqlSelectFrom
    rw [strToList_append, strToList_append, strToList_append, List.append_assoc,
      List.append_assoc]
    exact containsL_append_right _
      (containsL_of_isPrefixL (isPrefixL_append _ hpre))

/-- Witness for C4 at a concrete aggregating, department-filtered query. -/
theorem groupby_excludes_department_witness :
    (generateSQL "total sales" none none).sql =
      sqlSelectFrom (queryComponents (jsToLower "total sales") none none) ++
      sqlWhere (queryComponents (jsToLower "total sales") none none) ++
      " GROUP BY m.metric_name" ++
      sqlOrder (queryComponents (jsToLower "total sales") none none) ++
      sqlLimit (queryComponents (jsToLower "total sales") none none) ∧
    jsIncludes (sqlSelectFrom (queryComponents (jsToLower "total sales") none none))
      "d.name as department" = true :=
  groupby_excludes_department "total sales" none none (by decide) (by decide)

/-- C10 — a question matching none of the extraction rules, with no
explicit overrides, compiles to the unfiltered default query: no WHERE, no
GROUP BY, no LIMIT, recency ORDER BY, empty parameter list, and a non-empty
explanation describing a generic retrieval. -/
theorem no_match_fallback (q : String)
    (h1 : deptScan (jsToLower q) = none)
    (h2 : implicitDateRange (jsToLower q) = { type := "none", sql := "", parameters := [] })
    (h3 : extractAggregation (jsToLower q) = { type := "none", function := "" })
    (h4 : extractMetrics (jsToLower q) = [])
    (h5 : extractComparison (jsToLower q) = { type := "none", direction := "" })
    (h6 : extractLimit (jsToLower q) = 0) :
    (generateSQL q none none).sql = defaultSql ∧
    (generateSQL q none none).parameters = [] ∧
    jsIncludes (generateSQL q none none).sql "WHERE" = false ∧
    jsIncludes (generateSQL q none none).sql "GROUP BY" = false ∧
    jsIncludes (generateSQL q none none).sql "LIMIT" = false ∧
    jsIncludes (generateSQL q none none).sql "ORDER BY m.metric_date DESC" = true ∧
    (generateSQL q none none).explanation =
      "Generated SQL query to retrieve metrics. Matched patterns: basic_selection." ∧
    (generateSQL q none none).explanation ≠ "" := by
  have hc : queryComponents (jsToLower q) none none =
      { department := none, dateRange := { type := "none", sql := "", parameters := [] },
        aggregation := { type := "none", function := "" }, metrics := [],
        comparison := { type := "none", direction := "" }, limit := 0 } := by
    simp [queryComponents, extractDepartment, extractDateRange, h1, h2, h3, h4, h5, h6]
  have hg : generateSQL q none none =
      { sql := defaultSql, parameters := [],
        explanation :=
          "Generated SQL query to retrieve metrics. Matched patterns: basic_selection.",
        matched_patterns := ["basic_selection"], department_filter := none,
        date_filter := "none", aggregation_type := "none" } := by
    simp only [generateSQL, hc]
    decide
  rw [hg]
  exact ⟨rfl, rfl, by decide, by decide, by decide, by decide, rfl, by decide⟩

/-- Witness for C10 at the spec's example question `hello`. -/
theorem no_match_fallback_witness :
    (generateSQL "hello" none none).sql = defaultSql ∧
    (generateSQL "hello" none none).parameters = [] ∧
    jsIncludes (generateSQL "hello" none none).sql "WHERE" = false ∧
    jsIncludes (generateSQL "hello" none none).sql "GROUP BY" = false ∧
    jsIncludes (generateSQL "hello" none none).sql "LIMIT" = false ∧
    jsIncludes (generateSQL "hello" none none).sql "ORDER BY m.metric_date DESC" = true ∧
    (generateSQL "hello" none none).explanation =
      "Generated SQL query to retrieve metrics. Matched patterns: basic_selection." ∧
    (generateSQL "hello" none none).explanation ≠ "" :=
  no_match_fallback "hello" (by decide) (by decide) (by decide) (by decide) (by decide)
    (by decide)

end AnalyticsDemo
